import Mathlib

/-!
# Verification of the toast notification module

Shallow embedding of goal-static/helpers/notification/toast.py.

The module keeps two pieces of process-wide state: an optional handle to a
cross-process FIFO queue (set by init_notification_queue) and an ordered list
of currently active toasts.  The producer API show_message_notification
enqueues a request; the renderer API display_notification creates a window,
positions it in a bottom-right stack, appends it to the active list and runs
a cooperative fade-in / hold / fade-out animation driven by self-rescheduling
timer callbacks.  prompt_notification shows a modal Yes/No dialog.

The GUI toolkit is abstracted: window creation, geometry, the per-toast task
list, the timer queue and the destroy hook become explicit state; each
primitive emits an event so that ordering claims can be stated over traces.
-/

namespace Toast

/-- A notification request's display options, mirroring the dict literal
built inside show_message_notification. -/
structure Options where
  duration : Nat
  icon : String
  bg_color : Option String
deriving DecidableEq, Repr

/-- A queued notification request: the tuple (title, message, options). -/
abbrev Request := String × String × Options

/-- Process-wide module state: the optional queue handle (notification_queue,
modelled as the queue's FIFO contents) and the active toast list
(active_toasts, identified by numeric ids). -/
structure ModuleState where
  notification_queue : Option (List Request)
  active_toasts : List Nat
deriving DecidableEq, Repr

/-- init_notification_queue: assign the shared notification queue
unconditionally (last write wins). -/
def init_notification_queue (q : Option (List Request)) (s : ModuleState) : ModuleState :=
  { s with notification_queue := q }

/-- show_message_notification: raise if the queue handle is still None,
otherwise put the tuple (title, message, {duration, icon, bg_color}) on the
queue.  Returns the new module state together with the outcome. -/
def show_message_notification (s : ModuleState) (title message : String)
    (duration : Nat := 5000) (icon : String := "ℹ️") (bg_color : Option String := none) :
    ModuleState × Except String Unit :=
  match s.notification_queue with
  | none => (s, Except.error "Notification queue not initialized")
  | some q =>
      ({ s with notification_queue := some (q ++ [(title, message, ⟨duration, icon, bg_color⟩)]) },
       Except.ok ())

/-! ## Prompt dialog

prompt_notification builds a modal window whose Yes button runs on_yes
(set result to True, destroy) and whose No button runs on_no (destroy),
then blocks in wait_window until the window is destroyed and returns the
captured result, which starts as False.  The user interaction is modelled
as a sequence of actions delivered to the live window; once the window is
destroyed no further action reaches it. -/

/-- One user-side action on the prompt window. -/
inductive PromptAction where
  | clickYes
  | clickNo
  | externalDestroy
deriving DecidableEq, Repr

/-- The prompt's internal state: the result dict and whether the window has
been destroyed (which is what wait_window waits for). -/
structure PromptState where
  value : Bool
  destroyed : Bool
deriving DecidableEq, Repr

/-- Deliver one action to the prompt window.  A destroyed window receives
nothing.  clickYes runs on_yes (result True then destroy); clickNo runs
on_no (destroy); an external destroy just destroys. -/
def promptStep (s : PromptState) (a : PromptAction) : PromptState :=
  if s.destroyed then s
  else
    match a with
    | PromptAction.clickYes => { value := true, destroyed := true }
    | PromptAction.clickNo => { s with destroyed := true }
    | PromptAction.externalDestroy => { s with destroyed := true }

/-- prompt_notification under a given interaction sequence: fold the actions
over the initial state (result False, window alive); wait_window returns only
once the window is destroyed, so the call yields a boolean exactly when some
action destroyed the window, and none while it still blocks. -/
def prompt_notification (actions : List PromptAction) : Option Bool :=
  let final := actions.foldl promptStep { value := false, destroyed := false }
  if final.destroyed then some final.value else none

/-! ## Display engine

display_notification creates the window, computes the stacked position from
the toasts already active, appends itself to the active list, builds the
content, binds cancel_tasks to the window's Destroy event and calls fade_in.
fade_in and fade_out are cooperative timer callbacks: each step sets the
window alpha and reschedules itself through toast.after, recording the timer
id in the per-toast tasks list; cancel_tasks cancels every recorded id.
Every primitive emits an Event so ordering can be stated over the trace. -/

/-- The layout constants of display_notification:
width, height, margin, gap = 300, 100, 20, 10. -/
def width : Int := 300

/-- Toast window height (100). -/
def height : Int := 100

/-- Margin from the screen edges (20). -/
def margin : Int := 20

/-- Vertical gap between stacked toasts (10). -/
def gap : Int := 10

/-- A scheduled fade callback, carrying its alpha argument.  Window alpha is
modelled exactly as a rational (the source steps a float by 0.1). -/
inductive Callback where
  | fade_in (alpha : ℚ)
  | fade_out (alpha : ℚ)
deriving DecidableEq, Repr

/-- Observable events of the display engine, in source order. -/
inductive Event where
  /-- ctk.CTkToplevel() -/
  | createWindow
  /-- toast.geometry(f"\x7bwidth\x7dx\x7bheight\x7d+\x7bx\x7d+\x7by\x7d") -/
  | setGeometry (x y : Int)
  /-- active_toasts.append(toast) -/
  | appendActive
  /-- toast.bind("<Destroy>", lambda e: cancel_tasks()) -/
  | bindDestroy
  /-- a fade callback starts running with its alpha argument -/
  | invoke (c : Callback)
  /-- toast.attributes("-alpha", a) -/
  | setAlpha (a : ℚ)
  /-- tasks.append(toast.after(delay, c)) -/
  | sched (delay : Nat) (c : Callback)
  /-- cancel_tasks(): after_cancel every id in tasks -/
  | cancelTasks
  /-- active_toasts.remove(toast) -/
  | removeActive
  /-- toast.destroy() -/
  | destroyWin
deriving DecidableEq, Repr

/-- The state of one toast inside the renderer process: its id, whether the
window still exists (winfo_exists), the current window alpha, the per-toast
tasks list of timer ids, the timer queue of still-pending scheduled
callbacks, the next fresh timer id, and the process's active toast list. -/
structure ToastState where
  self : Nat
  win_exists : Bool
  alpha : ℚ
  tasks : List Nat
  pending : List (Nat × Callback)
  nextId : Nat
  active_toasts : List Nat
deriving DecidableEq, Repr

/-- tasks.append(toast.after(delay, c)): allocate a timer id, append it to
the toast's tasks list and enqueue the callback; emits the sched event. -/
def after (delay : Nat) (c : Callback) (s : ToastState) : ToastState × Event :=
  ({ s with tasks := s.tasks ++ [s.nextId],
            pending := s.pending ++ [(s.nextId, c)],
            nextId := s.nextId + 1 },
   Event.sched delay c)

/-- cancel_tasks: after_cancel every timer id recorded in tasks (cancelling
an already-fired or unknown id is a caught no-op), i.e. drop every pending
entry whose id is in the tasks list. -/
def cancel_tasks (s : ToastState) : ToastState :=
  { s with pending := s.pending.filter (fun p => decide (p.1 ∉ s.tasks)) }

/-- toast.destroy(): the window's Destroy binding fires cancel_tasks, then
the window ceases to exist. -/
def destroy (s : ToastState) : ToastState :=
  { cancel_tasks s with win_exists := false }

/-- Run one fade callback, mirroring fade_in / fade_out line by line:
both first return immediately when the window no longer exists; fade_in with
alpha < 1.0 sets the alpha and reschedules itself at alpha + 0.1 after 20 ms,
otherwise clamps alpha to 1.0 and schedules fade_out after duration ms;
fade_out with alpha > 0 sets the alpha and reschedules itself at alpha - 0.1
after 20 ms, otherwise runs cancel_tasks, removes the toast from
active_toasts if present, and destroys the window. -/
def runCallback (duration : Nat) (c : Callback) (s : ToastState) : ToastState × List Event :=
  if s.win_exists = false then (s, [Event.invoke c])
  else
    match c with
    | Callback.fade_in a =>
        if a < 1 then
          let p := after 20 (Callback.fade_in (a + 1/10)) { s with alpha := a }
          (p.1, [Event.invoke c, Event.setAlpha a, p.2])
        else
          let p := after duration (Callback.fade_out 1) { s with alpha := 1 }
          (p.1, [Event.invoke c, Event.setAlpha 1, p.2])
    | Callback.fade_out a =>
        if 0 < a then
          let p := after 20 (Callback.fade_out (a - 1/10)) { s with alpha := a }
          (p.1, [Event.invoke c, Event.setAlpha a, p.2])
        else
          let s1 := cancel_tasks s
          let s2 := if s1.self ∈ s1.active_toasts
                    then { s1 with active_toasts := s1.active_toasts.erase s1.self }
                    else s1
          (destroy s2,
           [Event.invoke c, Event.cancelTasks]
             ++ (if s1.self ∈ s1.active_toasts then [Event.removeActive] else [])
             ++ [Event.destroyWin])

/-- The renderer's cooperative event loop for one toast: repeatedly pop the
oldest pending timer callback and run it, until the timer queue is empty or
the fuel runs out; collects the emitted trace. -/
def runLoop (duration : Nat) : Nat → ToastState → ToastState × List Event
  | 0, s => (s, [])
  | fuel + 1, s =>
      match s.pending with
      | [] => (s, [])
      | q :: rest =>
          let p := runCallback duration q.2 { s with pending := rest }
          let p2 := runLoop duration fuel p.1
          (p2.1, p.2 ++ p2.2)

/-- display_notification in the renderer process: create the window at alpha
0, compute the stacked bottom-right position from the toasts currently in
active_toasts, append self to active_toasts, bind cancel_tasks to the Destroy
event and invoke fade_in() once.  Returns the toast state (further driven by
the event loop), the emitted trace, and the computed x and y. -/
def display_notification (screen_w screen_h : Int) (duration : Nat)
    (active : List Nat) (self : Nat) : ToastState × List Event × Int × Int :=
  let y := screen_h - height - margin - ((active.map (fun _ => height + gap)).sum)
  let x := screen_w - width - margin
  let s0 : ToastState :=
    { self := self, win_exists := true, alpha := 0, tasks := [], pending := [],
      nextId := 0, active_toasts := active ++ [self] }
  let p := runCallback duration (Callback.fade_in 0) s0
  (p.1,
   [Event.createWindow, Event.setGeometry x y, Event.appendActive, Event.bindDestroy] ++ p.2,
   x, y)

/-- A toast's whole undisturbed lifetime: display_notification followed by
the event loop running its timer callbacks to completion (22 callbacks
suffice; fuel 30 is ample). -/
def toastRun (screen_w screen_h : Int) (duration : Nat)
    (active : List Nat) (self : Nat) : ToastState × List Event :=
  let d := display_notification screen_w screen_h duration active self
  let p := runLoop duration 30 d.1
  (p.1, d.2.1 ++ p.2)

/-- N sequential display_notification calls with no removals: each call sees
the active list left by the previous one; collects each toast's computed y. -/
def displaySeq (screen_w screen_h : Int) (duration : Nat) :
    Nat → List Nat → Nat → List Int
  | 0, _, _ => []
  | n + 1, active, next =>
      let d := display_notification screen_w screen_h duration active next
      d.2.2.2 :: displaySeq screen_w screen_h duration n d.1.active_toasts (next + 1)

/-! ## Producer API theorems -/

/-- Claim C1: in a process where init_notification_queue has not set the
queue handle (it is still None), every call to show_message_notification
raises the initialization error and enqueues nothing: the module state is
returned unchanged. -/
theorem show_message_notification_uninitialized_error (s : ModuleState)
    (title message : String) (duration : Nat) (icon : String) (bg : Option String)
    (h : s.notification_queue = none) :
    show_message_notification s title message duration icon bg =
      (s, Except.error "Notification queue not initialized") := by
  simp [show_message_notification, h]

/-- Witness for the uninitialized-error theorem at a concrete state. -/
theorem show_message_notification_uninitialized_error_witness :
    show_message_notification ⟨none, [7]⟩ "title" "msg" 5000 "ℹ️" none =
      (⟨none, [7]⟩, Except.error "Notification queue not initialized") :=
  show_message_notification_uninitialized_error ⟨none, [7]⟩ "title" "msg" 5000 "ℹ️" none rfl

/-- Claim C5: with the queue handle set, show_message_notification enqueues
exactly the tuple (title, message, {duration, icon, bg_color}) and succeeds;
the omitted arguments default to duration = 5000, icon = "ℹ️",
bg_color = None. -/
theorem show_message_notification_enqueues (s : ModuleState) (q : List Request)
    (title message : String) (duration : Nat) (icon : String) (bg : Option String)
    (h : s.notification_queue = some q) :
    show_message_notification s title message duration icon bg =
      ({ s with notification_queue := some (q ++ [(title, message, ⟨duration, icon, bg⟩)]) },
       Except.ok ())
    ∧ show_message_notification s title message =
        show_message_notification s title message 5000 "ℹ️" none := by
  exact ⟨by simp [show_message_notification, h], rfl⟩

/-- Witness for the enqueue theorem at a concrete state. -/
theorem show_message_notification_enqueues_witness :
    show_message_notification ⟨some [], []⟩ "t" "m" 3000 "x" (some "red") =
      (⟨some [("t", "m", ⟨3000, "x", some "red"⟩)], []⟩, Except.ok ())
    ∧ show_message_notification ⟨some [], []⟩ "t" "m" =
        show_message_notification ⟨some [], []⟩ "t" "m" 5000 "ℹ️" none :=
  show_message_notification_enqueues ⟨some [], []⟩ [] "t" "m" 3000 "x" (some "red") rfl

/-- Claim C9: the only state change show_message_notification performs is the
single put on the queue: active_toasts is untouched, the handle stays
set/unset as it was, a failing call leaves the state entirely unchanged and
a successful call changes nothing but appending one request to the queue
contents. -/
theorem show_message_notification_frame (s : ModuleState)
    (title message : String) (duration : Nat) (icon : String) (bg : Option String) :
    (show_message_notification s title message duration icon bg).1.active_toasts
        = s.active_toasts
    ∧ (show_message_notification s title message duration icon bg).1.notification_queue.isSome
        = s.notification_queue.isSome
    ∧ (s.notification_queue = none →
        (show_message_notification s title message duration icon bg).1 = s)
    ∧ (∀ q, s.notification_queue = some q →
        (show_message_notification s title message duration icon bg).1 =
          { s with notification_queue := some (q ++ [(title, message, ⟨duration, icon, bg⟩)]) }) := by
  cases h : s.notification_queue with
  | none => simp [show_message_notification, h]
  | some q => simp [show_message_notification, h]

/-- Witness for the frame theorem at a concrete state. -/
theorem show_message_notification_frame_witness :
    (show_message_notification ⟨some [], [1, 2]⟩ "t" "m" 5000 "ℹ️" none).1.active_toasts
      = [1, 2] :=
  (show_message_notification_frame ⟨some [], [1, 2]⟩ "t" "m" 5000 "ℹ️" none).1

/-- Claim C10: init_notification_queue stores its argument unconditionally
and the notify-side guard only tests the stored handle against None, so
re-initializing with None after a successful initialization makes every
subsequent show_message_notification call raise the initialization error
again. -/
theorem init_notification_queue_none_resets (s : ModuleState)
    (q : Option (List Request)) (title message : String)
    (duration : Nat) (icon : String) (bg : Option String) :
    (init_notification_queue q s).notification_queue = q
    ∧ show_message_notification
        (init_notification_queue none (init_notification_queue q s))
        title message duration icon bg =
      (init_notification_queue none (init_notification_queue q s),
       Except.error "Notification queue not initialized") :=
  ⟨rfl, rfl⟩

/-! ## Prompt dialog theorems -/

/-- Once the prompt window is destroyed, no further action changes its
state: wait_window has already been released. -/
theorem promptStep_absorb (l : List PromptAction) (s : PromptState)
    (h : s.destroyed = true) : l.foldl promptStep s = s := by
  induction l with
  | nil => rfl
  | cons a t ih =>
      have hstep : promptStep s a = s := by simp [promptStep, h]
      rw [List.foldl_cons, hstep, ih]

/-- The first action delivered to the live prompt window decides the call:
it destroys the window, and the captured result is true exactly for the Yes
button. -/
theorem prompt_notification_first_action (a : PromptAction) (rest : List PromptAction) :
    prompt_notification (a :: rest) =
      some (match a with
            | PromptAction.clickYes => true
            | PromptAction.clickNo => false
            | PromptAction.externalDestroy => false) := by
  have h1 : (promptStep { value := false, destroyed := false } a).destroyed = true := by
    cases a <;> rfl
  unfold prompt_notification
  rw [List.foldl_cons, promptStep_absorb rest _ h1]
  cases a <;> rfl

/-- Claim C4: prompt_notification returns true if and only if the Yes
control was activated before the window was dismissed; dismissal through the
No button or through any other destruction of the window returns false, and
while the window is not dismissed the call still blocks (no result). -/
theorem prompt_notification_yes_iff :
    (∀ (a : PromptAction) (rest : List PromptAction),
        (prompt_notification (a :: rest) = some true ↔ a = PromptAction.clickYes)
        ∧ (prompt_notification (a :: rest) = some false ↔ a ≠ PromptAction.clickYes))
    ∧ prompt_notification [] = none := by
  refine ⟨fun a rest => ?_, rfl⟩
  rw [prompt_notification_first_action]
  cases a <;> simp

/-! ## Stacking theorems -/

/-- The stacking sum of display_notification counts height + gap once per
active toast. -/
theorem sum_map_height_gap (l : List Nat) :
    ((l.map (fun _ => height + gap)).sum) = (l.length : Int) * (height + gap) := by
  induction l with
  | nil => simp
  | cons a t ih =>
      rw [List.map_cons, List.sum_cons, ih, List.length_cons]
      push_cast
      ring

/-- display_notification appends the new toast to active_toasts and changes
the list in no other way. -/
theorem display_notification_active (sw sh : Int) (d : Nat)
    (active : List Nat) (self : Nat) :
    (display_notification sw sh d active self).1.active_toasts = active ++ [self] := by
  norm_num [display_notification, runCallback, after]

/-- The y computed by display_notification is determined by the number of
already-active toasts. -/
theorem display_notification_y (sw sh : Int) (d : Nat)
    (active : List Nat) (self : Nat) :
    (display_notification sw sh d active self).2.2.2 =
      sh - height - margin - (active.length : Int) * (height + gap) := by
  rw [show (display_notification sw sh d active self).2.2.2 =
        sh - height - margin - ((active.map (fun _ => height + gap)).sum) from rfl,
      sum_map_height_gap]

/-- In a run of sequential displays with no removals, the i-th new toast
sees the starting actives plus its i predecessors. -/
theorem displaySeq_getD (sw sh : Int) (d : Nat) :
    ∀ (n : Nat) (active : List Nat) (next i : Nat), i < n →
      (displaySeq sw sh d n active next).getD i 0 =
        sh - height - margin - ((active.length : Int) + i) * (height + gap) := by
  intro n
  induction n with
  | zero => intro active next i h; omega
  | succ n ih =>
      intro active next i h
      cases i with
      | zero =>
          rw [show (displaySeq sw sh d (n + 1) active next).getD 0 0 =
                (display_notification sw sh d active next).2.2.2 from rfl,
              display_notification_y]
          push_cast
          ring_nf
      | succ i =>
          have h2 : i < n := by omega
          rw [show (displaySeq sw sh d (n + 1) active next).getD (i + 1) 0 =
                (displaySeq sw sh d n
                  (display_notification sw sh d active next).1.active_toasts
                  (next + 1)).getD i 0 from rfl,
              display_notification_active, ih _ _ i h2]
          rw [List.length_append, List.length_cons, List.length_nil]
          push_cast
          ring_nf

/-- Claim C2: with N sequential display_notification calls and no removals,
the toast displayed when i toasts are already active gets
y = screen_height - height - margin - i * (height + gap), i.e. the i-th
slot sits i * (height + gap) above the bottom-margin slot. -/
theorem displaySeq_nth_offset (sw sh : Int) (d N i : Nat) (h : i < N) :
    (displaySeq sw sh d N [] 0).getD i 0 =
      sh - height - margin - (i : Int) * (height + gap) := by
  rw [displaySeq_getD sw sh d N [] 0 i h]
  norm_num

/-- Witness for the stacking offset theorem: three toasts on a 1920 x 1080
screen occupy y = 960, 850, 740. -/
theorem displaySeq_nth_offset_witness :
    2 < 3 ∧ (displaySeq 1920 1080 5000 3 [] 0).getD 2 0 =
      1080 - height - margin - (2 : Int) * (height + gap) :=
  ⟨by norm_num, displaySeq_nth_offset 1920 1080 5000 3 2 (by norm_num)⟩

/-! ## Fade animation theorems -/

/-- Claim C3: the complete trace of a toast whose window is never externally
destroyed.  The fade-in steps the opacity by 0.1 every 20 ms from 0.0 up,
clamps it to exactly 1.0 and only then schedules the hold timer of duration
ms; the fade-out steps it by 0.1 every 20 ms down until the callback runs at
opacity 0 (at or below the minimum), and only then it cancels its pending
tasks, is removed from the active list and destroys its window, in that
order. -/
theorem toastRun_full_trace (sw sh : Int) (d : Nat) (active : List Nat) (self : Nat) :
    (toastRun sw sh d active self).2 =
      [Event.createWindow,
       Event.setGeometry (sw - width - margin)
         (sh - height - margin - ((active.map (fun _ => height + gap)).sum)),
       Event.appendActive, Event.bindDestroy,
       Event.invoke (Callback.fade_in 0), Event.setAlpha 0, Event.sched 20 (Callback.fade_in (1/10)),
       Event.invoke (Callback.fade_in (1/10)), Event.setAlpha (1/10), Event.sched 20 (Callback.fade_in (2/10)),
       Event.invoke (Callback.fade_in (2/10)), Event.setAlpha (2/10), Event.sched 20 (Callback.fade_in (3/10)),
       Event.invoke (Callback.fade_in (3/10)), Event.setAlpha (3/10), Event.sched 20 (Callback.fade_in (4/10)),
       Event.invoke (Callback.fade_in (4/10)), Event.setAlpha (4/10), Event.sched 20 (Callback.fade_in (5/10)),
       Event.invoke (Callback.fade_in (5/10)), Event.setAlpha (5/10), Event.sched 20 (Callback.fade_in (6/10)),
       Event.invoke (Callback.fade_in (6/10)), Event.setAlpha (6/10), Event.sched 20 (Callback.fade_in (7/10)),
       Event.invoke (Callback.fade_in (7/10)), Event.setAlpha (7/10), Event.sched 20 (Callback.fade_in (8/10)),
       Event.invoke (Callback.fade_in (8/10)), Event.setAlpha (8/10), Event.sched 20 (Callback.fade_in (9/10)),
       Event.invoke (Callback.fade_in (9/10)), Event.setAlpha (9/10), Event.sched 20 (Callback.fade_in 1),
       Event.invoke (Callback.fade_in 1), Event.setAlpha 1, Event.sched d (Callback.fade_out 1),
       Event.invoke (Callback.fade_out 1), Event.setAlpha 1, Event.sched 20 (Callback.fade_out (9/10)),
       Event.invoke (Callback.fade_out (9/10)), Event.setAlpha (9/10), Event.sched 20 (Callback.fade_out (8/10)),
       Event.invoke (Callback.fade_out (8/10)), Event.setAlpha (8/10), Event.sched 20 (Callback.fade_out (7/10)),
       Event.invoke (Callback.fade_out (7/10)), Event.setAlpha (7/10), Event.sched 20 (Callback.fade_out (6/10)),
       Event.invoke (Callback.fade_out (6/10)), Event.setAlpha (6/10), Event.sched 20 (Callback.fade_out (5/10)),
       Event.invoke (Callback.fade_out (5/10)), Event.setAlpha (5/10), Event.sched 20 (Callback.fade_out (4/10)),
       Event.invoke (Callback.fade_out (4/10)), Event.setAlpha (4/10), Event.sched 20 (Callback.fade_out (3/10)),
       Event.invoke (Callback.fade_out (3/10)), Event.setAlpha (3/10), Event.sched 20 (Callback.fade_out (2/10)),
       Event.invoke (Callback.fade_out (2/10)), Event.setAlpha (2/10), Event.sched 20 (Callback.fade_out (1/10)),
       Event.invoke (Callback.fade_out (1/10)), Event.setAlpha (1/10), Event.sched 20 (Callback.fade_out 0),
       Event.invoke (Callback.fade_out 0), Event.cancelTasks, Event.removeActive, Event.destroyWin] := by
  norm_num [toastRun, display_notification, runLoop, runCallback, after, cancel_tasks, destroy]

/-- Claim C8: display_notification's own trace: the new toast is appended to
the active list right after its position is computed (from the list without
it) and before any fade-animation step runs or is scheduled, and the
resulting active list is the old one with the new toast at the end, so the
next display_notification call positions itself one full slot higher. -/
theorem display_notification_append_before_fade (sw sh : Int) (d : Nat)
    (active : List Nat) (self other : Nat) :
    (display_notification sw sh d active self).2.1 =
      [Event.createWindow,
       Event.setGeometry (sw - width - margin)
         (sh - height - margin - ((active.map (fun _ => height + gap)).sum)),
       Event.appendActive, Event.bindDestroy,
       Event.invoke (Callback.fade_in 0), Event.setAlpha 0,
       Event.sched 20 (Callback.fade_in (1/10))]
    ∧ (display_notification sw sh d active self).1.active_toasts = active ++ [self]
    ∧ (display_notification sw sh d
          (display_notification sw sh d active self).1.active_toasts other).2.2.2 =
        sh - height - margin - ((active.length : Int) + 1) * (height + gap) := by
  refine ⟨?_, display_notification_active sw sh d active self, ?_⟩
  · norm_num [display_notification, runCallback, after]
  · rw [display_notification_y, display_notification_active]
    rw [List.length_append, List.length_cons, List.length_nil]
    push_cast
    ring_nf

/-! ## Cancellation and active-list theorems -/

/-- Every timer id still pending for the toast is recorded in its tasks
list, so cancel_tasks can cancel all of them.  This holds for every
reachable toast state: display establishes it and every callback preserves
it. -/
def tracked (s : ToastState) : Prop := ∀ p ∈ s.pending, p.1 ∈ s.tasks

/-- after records the very timer id it schedules, keeping the toast
tracked. -/
theorem tracked_after (delay : Nat) (c : Callback) (s : ToastState)
    (h : tracked s) : tracked (after delay c s).1 := by
  intro p hp
  simp only [after] at hp ⊢
  rcases List.mem_append.1 hp with h1 | h1
  · exact List.mem_append_left _ (h p h1)
  · rw [List.mem_singleton] at h1
    subst h1
    exact List.mem_append_right _ (List.mem_singleton.2 rfl)

/-- cancel_tasks drops every pending entry of a tracked toast. -/
theorem tracked_cancel_pending (s : ToastState) (h : tracked s) :
    (cancel_tasks s).pending = [] := by
  simp only [cancel_tasks]
  rw [List.filter_eq_nil_iff]
  intro p hp
  simp [h p hp]

/-- Every fade callback preserves trackedness. -/
theorem tracked_runCallback (d : Nat) (c : Callback) (s : ToastState)
    (h : tracked s) : tracked (runCallback d c s).1 := by
  by_cases hw : s.win_exists = false
  · simpa [runCallback, hw] using h
  · have hw2 : s.win_exists = true := by
      revert hw; cases s.win_exists <;> simp
    cases c with
    | fade_in a =>
        by_cases ha : a < 1
        · have h2 := tracked_after 20 (Callback.fade_in (a + 1/10)) { s with alpha := a }
            (fun p hp => h p hp)
          simpa [runCallback, hw2, ha] using h2
        · have h2 := tracked_after d (Callback.fade_out 1) { s with alpha := 1 }
            (fun p hp => h p hp)
          simpa [runCallback, hw2, ha] using h2
    | fade_out a =>
        by_cases ha : 0 < a
        · have h2 := tracked_after 20 (Callback.fade_out (a - 1/10)) { s with alpha := a }
            (fun p hp => h p hp)
          simpa [runCallback, hw2, ha] using h2
        · intro p hp
          by_cases hm : s.self ∈ s.active_toasts <;>
            simp [runCallback, hw2, ha, hm, destroy, cancel_tasks, List.mem_filter] at hp <;>
            exact absurd (h p hp.1) (by simpa using hp.2)

/-- The toast state display_notification hands to the event loop: window
alive at alpha 0, one scheduled fade-in step, its timer id recorded, and the
toast appended to the active list. -/
theorem display_notification_state (sw sh : Int) (d : Nat)
    (active : List Nat) (self : Nat) :
    (display_notification sw sh d active self).1 =
      { self := self, win_exists := true, alpha := 0, tasks := [0],
        pending := [(0, Callback.fade_in (1/10))], nextId := 1,
        active_toasts := active ++ [self] } := by
  norm_num [display_notification, runCallback, after]

/-- Claim C6: destroying the window fires the Destroy binding, which cancels
every pending scheduled fade callback of the toast (all pending ids are in
its tasks list: display establishes that and each callback keeps it), and a
fade step that runs when the window no longer exists changes nothing; in the
completed-fade-out branch the toast likewise ends with no pending callbacks
and a destroyed window. -/
theorem destroy_cancels_and_dead_window_noop :
    (∀ (d : Nat) (c : Callback) (s : ToastState), s.win_exists = false →
        runCallback d c s = (s, [Event.invoke c]))
    ∧ (∀ s : ToastState, tracked s → (destroy s).pending = [])
    ∧ (∀ (sw sh : Int) (d : Nat) (active : List Nat) (self : Nat),
        tracked (display_notification sw sh d active self).1)
    ∧ (∀ (d : Nat) (c : Callback) (s : ToastState), tracked s →
        tracked (runCallback d c s).1)
    ∧ (∀ (d : Nat) (s : ToastState), s.win_exists = true → tracked s →
        (runCallback d (Callback.fade_out 0) s).1.pending = []
        ∧ (runCallback d (Callback.fade_out 0) s).1.win_exists = false) := by
  refine ⟨?_, ?_, ?_, tracked_runCallback, ?_⟩
  · intro d c s h
    simp [runCallback, h]
  · intro s h
    simp only [destroy]
    rw [show ({ cancel_tasks s with win_exists := false } : ToastState).pending
          = (cancel_tasks s).pending from rfl]
    exact tracked_cancel_pending s h
  · intro sw sh d active self p hp
    rw [display_notification_state] at hp ⊢
    simp at hp ⊢
    simp [hp]
  · intro d s hw h
    have hpend : (cancel_tasks s).pending = [] := tracked_cancel_pending s h
    simp only [cancel_tasks, List.filter_eq_nil_iff] at hpend
    by_cases hm : s.self ∈ s.active_toasts <;>
      simp [runCallback, hw, hm, destroy, cancel_tasks, List.filter_eq_nil_iff] <;>
      intro a b hab <;> exact h (a, b) hab

/-- Witness for the cancellation theorem: a dead-window step is a no-op and
destroying a tracked toast leaves no pending callback. -/
theorem destroy_cancels_and_dead_window_noop_witness :
    runCallback 5000 (Callback.fade_in 0) ⟨0, false, 0, [], [], 0, []⟩ =
      (⟨0, false, 0, [], [], 0, []⟩, [Event.invoke (Callback.fade_in 0)])
    ∧ (destroy ⟨1, true, 1, [0, 1], [(1, Callback.fade_out 1)], 2, [1]⟩).pending = [] :=
  ⟨destroy_cancels_and_dead_window_noop.1 5000 (Callback.fade_in 0)
      ⟨0, false, 0, [], [], 0, []⟩ rfl,
   destroy_cancels_and_dead_window_noop.2.1
      ⟨1, true, 1, [0, 1], [(1, Callback.fade_out 1)], 2, [1]⟩
      (by intro p hp; rw [List.mem_singleton] at hp; subst hp; decide)⟩

/-- After an external destroy the event loop never changes the active list:
each popped callback finds the window gone and returns immediately. -/
theorem runLoop_dead_window_active (d : Nat) :
    ∀ (f : Nat) (s : ToastState), s.win_exists = false →
      (runLoop d f s).1.active_toasts = s.active_toasts
      ∧ (runLoop d f s).1.win_exists = false := by
  intro f
  induction f with
  | zero => intro s h; exact ⟨rfl, h⟩
  | succ f ih =>
      intro s h
      cases hp : s.pending with
      | nil => refine ⟨?_, ?_⟩ <;> simp [runLoop, hp, h]
      | cons q rest =>
          have hstep : runCallback d q.2 { s with pending := rest } =
              ({ s with pending := rest }, [Event.invoke q.2]) := by
            simp [runCallback, h]
          simp only [runLoop, hp, hstep]
          exact ih { s with pending := rest } h

/-- Claim C7: a toast is removed from active_toasts only by the
completed-fade-out branch of a live window, never by the Destroy hook: the
hook leaves the list untouched, a dead window's callbacks (and hence the
whole remaining event loop) leave it untouched, any callback that does
change the list is a fade_out at opacity at most 0 on a live window, and a
display_notification that follows an external destroy computes the same
position as if the destroyed toast were still active. -/
theorem active_removal_only_on_fadeout :
    (∀ s : ToastState, (destroy s).active_toasts = s.active_toasts)
    ∧ (∀ (d : Nat) (c : Callback) (s : ToastState), s.win_exists = false →
        (runCallback d c s).1.active_toasts = s.active_toasts)
    ∧ (∀ (d f : Nat) (s : ToastState), s.win_exists = false →
        (runLoop d f s).1.active_toasts = s.active_toasts)
    ∧ (∀ (d : Nat) (c : Callback) (s : ToastState),
        (runCallback d c s).1.active_toasts ≠ s.active_toasts →
        s.win_exists = true ∧ ∃ a, c = Callback.fade_out a ∧ a ≤ 0)
    ∧ (∀ (sw sh : Int) (d : Nat) (self : Nat) (s : ToastState),
        (display_notification sw sh d (destroy s).active_toasts self).2.2.2 =
          (display_notification sw sh d s.active_toasts self).2.2.2) := by
  refine ⟨fun s => rfl, ?_, ?_, ?_, ?_⟩
  · intro d c s h
    simp [runCallback, h]
  · intro d f s h
    exact (runLoop_dead_window_active d f s h).1
  · intro d c s hne
    by_cases hw : s.win_exists = false
    · exact absurd (by simp [runCallback, hw]) hne
    · have hw2 : s.win_exists = true := by
        revert hw; cases s.win_exists <;> simp
      refine ⟨hw2, ?_⟩
      cases c with
      | fade_in a =>
          exact absurd (by by_cases ha : a < 1 <;> simp [runCallback, hw2, ha, after]) hne
      | fade_out a =>
          by_cases ha : 0 < a
          · exact absurd (by simp [runCallback, hw2, ha, after]) hne
          · exact ⟨a, rfl, le_of_not_lt ha⟩
  · intro sw sh d self s
    rfl

/-- Witness for the removal theorem: an externally destroyed toast stays in
the active list through the rest of the event loop. -/
theorem active_removal_only_on_fadeout_witness :
    (runLoop 5000 5 ⟨2, false, 1, [0], [(0, Callback.fade_out 1)], 1, [2, 3]⟩).1.active_toasts
      = [2, 3] :=
  active_removal_only_on_fadeout.2.2.1 5000 5
    ⟨2, false, 1, [0], [(0, Callback.fade_out 1)], 1, [2, 3]⟩ rfl

end Toast

